import Mathlib

/-!
Verification development for the DDoS-detection core (Go package `detection`,
file `internal/detection/*.go`, plus the data model in `internal/models/traffic.go`).

Shallow embedding conventions:
* Go `float64` values are modelled as real numbers (`ℝ`); the spec itself only
  demands agreement "to floating-point tolerance".
* Go `int` counts and thresholds are modelled as `ℕ` (they are counts/floors);
  connection durations, which are compared with a configured floor, keep `ℤ`.
* Go maps built by the code (`map[string]int`, `map[string]bool`) are modelled
  as association lists built in first-insertion order by `tally` / `keys`.
  Go's map *iteration* order is deliberately unspecified at runtime, so every
  place where the code ranges over a map takes the iteration sequence as an
  explicit argument, constrained (in theorems) to be a permutation of the
  entries of the corresponding tally.
* `uuid.New()` and `time.Now()` are modelled as explicitly passed identifier
  and timestamp arguments (one per detector call), since their results are
  chosen by the environment, not by the analysed batch.
* `fmt.Sprintf` descriptions are modelled by the inductive `AttackDescription`
  recording the exact arguments the code formats into the string; two equal
  models yield equal formatted strings.
-/

namespace DDoS

/-- Model of Go `models.TrafficRequest` (internal/models/traffic.go). -/
structure TrafficRequest where
  ID : String
  Timestamp : Nat
  SourceIP : String
  DestIP : String
  SourcePort : Nat
  DestPort : Nat
  Protocol : String
  RequestPath : String
  UserAgent : String
  BytesSent : Nat
  BytesRecv : Nat
  StatusCode : Nat
  Duration : Int
deriving DecidableEq, Repr

/-- Model of Go `detection.Baseline`. Go field `NormalIPRatio` is modelled as
`NormalIPRatioValue`. All Go `float64` fields are reals; `AverageUniqueIPs`
is a Go `int`, hence `ℤ`. -/
structure Baseline where
  AverageRequestRate : ℝ
  AverageUniqueIPs : ℤ
  AverageIPEntropy : ℝ
  StandardDeviation : ℝ
  NormalIPRatioValue : ℝ
  AvgConnectionDuration : ℝ

/-- Model of Go `detection.Thresholds`. -/
structure Thresholds where
  RequestsPerSecond : Nat
  RequestRateZScore : ℝ
  IPEntropyMin : ℝ
  ConnectionsPerIP : Nat
  SlowConnectionTime : Int
  SYNFloodThreshold : Nat
  HTTPFloodThreshold : Nat

/-- Model of Go `detection.Detector` (a baseline plus thresholds). -/
structure Detector where
  baseline : Baseline
  thresholds : Thresholds

/-- Model of Go `detection.NewDetector` seed values. -/
noncomputable def NewDetector : Detector :=
  { baseline :=
      { AverageRequestRate := 100
        AverageUniqueIPs := 50
        AverageIPEntropy := 5.5
        StandardDeviation := 15
        NormalIPRatioValue := 2
        AvgConnectionDuration := 150 }
    thresholds :=
      { RequestsPerSecond := 500
        RequestRateZScore := 3
        IPEntropyMin := 3
        ConnectionsPerIP := 100
        SlowConnectionTime := 30000
        SYNFloodThreshold := 1000
        HTTPFloodThreshold := 2000 } }

/-- One step of building a Go `map[string]int` tally: `m[k]++`, modelled on an
association list kept in first-insertion order. -/
def bump : List (String × Nat) → String → List (String × Nat)
  | [], k => [(k, 1)]
  | (k0, c) :: t, k => if k0 = k then (k0, c + 1) :: t else (k0, c) :: bump t k

/-- The tally (`map[string]int` contents) obtained by incrementing a counter
for every element of `ks`, as the single scan in `calculateMetrics` does. -/
def tally (ks : List String) : List (String × Nat) := ks.foldl bump []

/-- Key list of an association-list map (the map's key set, insertion order). -/
def keys (l : List (String × Nat)) : List String := l.map Prod.fst

/-- Go map read with zero default: `m[k]` on a `map[string]int`. -/
def lookupCount (l : List (String × Nat)) (k : String) : Nat :=
  match l.find? (fun p => p.1 = k) with
  | some p => p.2
  | none => 0

/-- Model of Go `calculateEntropy` (detector.go): sum the counts, return 0 for
an empty total, otherwise subtract `p * log2 p` for every positive count. -/
noncomputable def calculateEntropy (counts : List (String × Nat)) : ℝ :=
  let total := (counts.map Prod.snd).sum
  if total = 0 then 0
  else
    counts.foldl
      (fun e p =>
        if 0 < p.2 then
          e - ((p.2 : ℝ) / (total : ℝ)) * Real.logb 2 ((p.2 : ℝ) / (total : ℝ))
        else e)
      0

/-- Modelled from the spec's words (for the refinement part of claim C3 only):
`H = − Σ p·log2(p)` over the categories with positive count, `p = count/total`.
With an all-zero or empty distribution the sum is empty, giving 0. -/
noncomputable def shannonEntropy (counts : List (String × Nat)) : ℝ :=
  Neg.neg
    (((counts.filter (fun p => 0 < p.2)).map
      (fun p => ((p.2 : ℝ) / ((counts.map Prod.snd).sum : ℝ)) *
        Real.logb 2 ((p.2 : ℝ) / ((counts.map Prod.snd).sum : ℝ)))).sum)

/-- Per-source tally over the whole batch (Go `ipCounts`). -/
def ipTally (requests : List TrafficRequest) : List (String × Nat) :=
  tally (requests.map (fun r => r.SourceIP))

/-- Per-protocol tally over the whole batch (Go `protocolCounts`). -/
def protocolTally (requests : List TrafficRequest) : List (String × Nat) :=
  tally (requests.map (fun r => r.Protocol))

/-- Per-path tally over the whole batch (Go `pathCounts`). -/
def pathTally (requests : List TrafficRequest) : List (String × Nat) :=
  tally (requests.map (fun r => r.RequestPath))

/-- Count of `TCP_SYN`-tagged records (Go `synCount`). -/
def synCountOf (requests : List TrafficRequest) : Nat :=
  requests.countP (fun r => r.Protocol = "TCP_SYN")

/-- Model of Go `TrafficMetrics`. -/
structure TrafficMetrics where
  TotalRequests : Nat
  UniqueIPs : Nat
  IPCounts : List (String × Nat)
  ProtocolCounts : List (String × Nat)
  PathCounts : List (String × Nat)
  IPEntropy : ℝ
  PathEntropy : ℝ
  AvgConnDuration : ℝ
  RequestsPerIP : ℝ
  SYNPacketCount : Nat

/-- Model of Go `calculateMetrics`: one scan building the three tallies, the
total duration and the SYN count, then the derived fields. -/
noncomputable def calculateMetrics (requests : List TrafficRequest) : TrafficMetrics :=
  let ipCounts := ipTally requests
  let totalDuration := (requests.map (fun r => r.Duration)).sum
  { TotalRequests := requests.length
    UniqueIPs := ipCounts.length
    IPCounts := ipCounts
    ProtocolCounts := protocolTally requests
    PathCounts := pathTally requests
    IPEntropy := calculateEntropy ipCounts
    PathEntropy := calculateEntropy (pathTally requests)
    AvgConnDuration :=
      if requests.length = 0 then 0
      else (totalDuration : ℝ) / (requests.length : ℝ)
    RequestsPerIP := (requests.length : ℝ) / (ipCounts.length : ℝ)
    SYNPacketCount := synCountOf requests }

/-- Arguments of the `fmt.Sprintf` call producing a finding's description; two
findings with equal models have equal formatted strings. -/
inductive AttackDescription where
  | synFlood (synCount numIPs : Nat)
  | httpFlood (httpCount : Nat) (pathEntropy : ℝ)
  | slowloris (slowConnections numIPs : Nat)
  | udpFlood (udpCount numIPs : Nat)
  | rateAnomaly (requestRate zScore ipEntropy : ℝ)

/-- Model of Go `models.Attack`. Go field `Type` is modelled as `AttackType`
(`Type` is reserved in Lean); the `Metrics` pointer field, never set by the
detection code, is `MetricsSnapshot`. -/
structure Attack where
  ID : String
  AttackType : String
  Severity : String
  Confidence : ℝ
  StartTime : Nat
  EndTime : Option Nat
  SourceIPs : List String
  TargetIPs : List String
  Description : AttackDescription
  MetricsSnapshot : Option TrafficMetrics
  Mitigated : Bool

/-- Model of Go `getSeverity`: the shared confidence-to-severity step function. -/
noncomputable def getSeverity (confidence : ℝ) : String :=
  if 0.9 ≤ confidence then "CRITICAL"
  else if 0.7 ≤ confidence then "HIGH"
  else if 0.5 ≤ confidence then "MEDIUM"
  else "LOW"

/-- Inner pass of Go `getTopIPs`: one run of the exchange loop
`for j := i+1; ...; if ips[j].count > ips[i].count swap`, returning the value
left at position `i` and the rest of the array in its post-loop order. -/
def bubbleStep : (String × Nat) → List (String × Nat) → (String × Nat) × List (String × Nat)
  | a, [] => (a, [])
  | a, b :: t =>
    if a.2 < b.2 then
      let r := bubbleStep b t
      (r.1, a :: r.2)
    else
      let r := bubbleStep a t
      (r.1, b :: r.2)

/-- Outer loop of Go `getTopIPs`: run the exchange pass for the first `n`
positions (`for i := 0; i < len(ips) && i < n; i++`). -/
def selectTop : Nat → List (String × Nat) → List (String × Nat)
  | 0, l => l
  | _ + 1, [] => []
  | n + 1, a :: t =>
    let r := bubbleStep a t
    r.1 :: selectTop n r.2

/-- Model of Go `getTopIPs`: partially sort the entry list (in its map-iteration
order) and keep the first `min n (number of entries)` addresses. -/
def getTopIPs (ipCounts : List (String × Nat)) (n : Nat) : List String :=
  ((selectTop n ipCounts).take (min n ipCounts.length)).map Prod.fst

/-- Distinct source addresses of `TCP_SYN`-tagged records (the key set of the
Go `synIPs` map built in `detectSYNFlood`). -/
def synIPs (requests : List TrafficRequest) : List String :=
  keys (tally ((requests.filter (fun r => r.Protocol = "TCP_SYN")).map (fun r => r.SourceIP)))

/-- Count of `HTTP`-tagged records (Go `httpCount` in `detectHTTPFlood`). -/
def httpCountOf (requests : List TrafficRequest) : Nat :=
  requests.countP (fun r => r.Protocol = "HTTP")

/-- Per-source tally of `HTTP`-tagged records (the Go `httpIPs` map). -/
def httpTally (requests : List TrafficRequest) : List (String × Nat) :=
  tally ((requests.filter (fun r => r.Protocol = "HTTP")).map (fun r => r.SourceIP))

/-- Slow-connection predicate of `detectSlowloris`. -/
def slowPred (thr : Thresholds) (r : TrafficRequest) : Prop :=
  r.Protocol = "HTTP" ∧ thr.SlowConnectionTime < r.Duration

instance (thr : Thresholds) (r : TrafficRequest) : Decidable (slowPred thr r) :=
  inferInstanceAs (Decidable (_ ∧ _))

/-- Count of slow connections (Go `slowConnections`). -/
def slowCountOf (thr : Thresholds) (requests : List TrafficRequest) : Nat :=
  requests.countP (fun r => slowPred thr r)

/-- Per-source tally of slow connections (the Go `slowIPs` map). -/
def slowTally (thr : Thresholds) (requests : List TrafficRequest) : List (String × Nat) :=
  tally ((requests.filter (fun r => slowPred thr r)).map (fun r => r.SourceIP))

/-- Distinct sources of slow connections (key set of the Go `slowIPs` map). -/
def slowIPs (thr : Thresholds) (requests : List TrafficRequest) : List String :=
  keys (slowTally thr requests)

/-- Per-source tally of `UDP`-tagged records (the Go `udpIPs` map). -/
def udpTally (requests : List TrafficRequest) : List (String × Nat) :=
  tally ((requests.filter (fun r => r.Protocol = "UDP")).map (fun r => r.SourceIP))

/-- Model of Go `detectSYNFlood`. `synOrder` is the iteration order of the
`synIPs` map (valid runs supply a permutation of `synIPs requests`); `id` and
`now` stand for `uuid.New().String()` and `time.Now()`. -/
noncomputable def detectSYNFlood (thr : Thresholds) (synOrder : List String)
    (metrics : TrafficMetrics) (id : String) (now : Nat) : Option Attack :=
  if metrics.SYNPacketCount < thr.SYNFloodThreshold then none
  else if thr.SYNFloodThreshold < metrics.SYNPacketCount ∧ synOrder.length < 10 then
    let confidence := min ((metrics.SYNPacketCount : ℝ) / ((thr.SYNFloodThreshold * 2 : Nat) : ℝ)) 1
    some
      { ID := id
        AttackType := "SYN_FLOOD"
        Severity := getSeverity confidence
        Confidence := confidence
        StartTime := now
        EndTime := none
        SourceIPs := synOrder
        TargetIPs := []
        Description := .synFlood metrics.SYNPacketCount synOrder.length
        MetricsSnapshot := none
        Mitigated := false }
  else none

/-- Model of Go `detectHTTPFlood`. `httpOrder` is the iteration order of the
`httpIPs` map handed to `getTopIPs`. -/
noncomputable def detectHTTPFlood (thr : Thresholds) (requests : List TrafficRequest)
    (httpOrder : List (String × Nat)) (metrics : TrafficMetrics)
    (id : String) (now : Nat) : Option Attack :=
  let httpCount := httpCountOf requests
  if httpCount < thr.HTTPFloodThreshold then none
  else if metrics.PathEntropy < 2 then
    let confidence := min ((httpCount : ℝ) / ((thr.HTTPFloodThreshold * 2 : Nat) : ℝ)) 1
    some
      { ID := id
        AttackType := "HTTP_FLOOD"
        Severity := getSeverity confidence
        Confidence := confidence
        StartTime := now
        EndTime := none
        SourceIPs := getTopIPs httpOrder 20
        TargetIPs := []
        Description := .httpFlood httpCount metrics.PathEntropy
        MetricsSnapshot := none
        Mitigated := false }
  else none

/-- Model of Go `detectSlowloris`. `slowOrder` is the iteration order of the
`slowIPs` map. -/
noncomputable def detectSlowloris (thr : Thresholds) (requests : List TrafficRequest)
    (slowOrder : List String) (id : String) (now : Nat) : Option Attack :=
  let slowConnections := slowCountOf thr requests
  if 100 < slowConnections ∧ slowOrder.length < 10 then
    let confidence := min ((slowConnections : ℝ) / 300) 1
    some
      { ID := id
        AttackType := "SLOWLORIS"
        Severity := getSeverity confidence
        Confidence := confidence
        StartTime := now
        EndTime := none
        SourceIPs := slowOrder
        TargetIPs := []
        Description := .slowloris slowConnections slowOrder.length
        MetricsSnapshot := none
        Mitigated := false }
  else none

/-- Model of Go `detectUDPFlood`. `udpOrder` is the iteration order of the
`udpIPs` map handed to `getTopIPs`. -/
noncomputable def detectUDPFlood (udpOrder : List (String × Nat))
    (metrics : TrafficMetrics) (id : String) (now : Nat) : Option Attack :=
  let udpCount := lookupCount metrics.ProtocolCounts "UDP"
  if udpCount < 2000 then none
  else
    let confidence := min ((udpCount : ℝ) / 5000) 1
    some
      { ID := id
        AttackType := "UDP_FLOOD"
        Severity := getSeverity confidence
        Confidence := confidence
        StartTime := now
        EndTime := none
        SourceIPs := getTopIPs udpOrder 20
        TargetIPs := []
        Description := .udpFlood udpCount udpOrder.length
        MetricsSnapshot := none
        Mitigated := false }

/-- The z-score computed by `detectRateAnomaly`. -/
noncomputable def zScoreOf (baseline : Baseline) (metrics : TrafficMetrics) : ℝ :=
  ((metrics.TotalRequests : ℝ) - baseline.AverageRequestRate) / baseline.StandardDeviation

/-- Model of Go `detectRateAnomaly`. `rateOrder` is the iteration order of
`metrics.IPCounts` handed to `getTopIPs`. -/
noncomputable def detectRateAnomaly (thr : Thresholds) (baseline : Baseline)
    (rateOrder : List (String × Nat)) (metrics : TrafficMetrics)
    (id : String) (now : Nat) : Option Attack :=
  let requestRate : ℝ := (metrics.TotalRequests : ℝ)
  let zScore := zScoreOf baseline metrics
  if thr.RequestRateZScore < zScore then
    if metrics.IPEntropy < thr.IPEntropyMin then
      let confidence := min (zScore / 6) 1
      some
        { ID := id
          AttackType := "RATE_ANOMALY"
          Severity := getSeverity confidence
          Confidence := confidence
          StartTime := now
          EndTime := none
          SourceIPs := getTopIPs rateOrder 20
          TargetIPs := []
          Description := .rateAnomaly requestRate zScore metrics.IPEntropy
          MetricsSnapshot := none
          Mitigated := false }
    else none
  else none

/-- Environment of one `AnalyzeTraffic` run: the map-iteration orders chosen by
the Go runtime for each ranged-over map, the fresh UUIDs, and the clock reads. -/
structure RunEnv where
  synOrder : List String
  httpOrder : List (String × Nat)
  slowOrder : List String
  udpOrder : List (String × Nat)
  rateOrder : List (String × Nat)
  synID : String
  httpID : String
  slowID : String
  udpID : String
  rateID : String
  synNow : Nat
  httpNow : Nat
  slowNow : Nat
  udpNow : Nat
  rateNow : Nat

/-- A run environment is valid for a batch when every iteration order
enumerates exactly the entries of the map the code actually ranges over. -/
def RunEnv.Valid (env : RunEnv) (thr : Thresholds) (requests : List TrafficRequest) : Prop :=
  env.synOrder.Perm (synIPs requests) ∧
  env.httpOrder.Perm (httpTally requests) ∧
  env.slowOrder.Perm (slowIPs thr requests) ∧
  env.udpOrder.Perm (udpTally requests) ∧
  env.rateOrder.Perm (ipTally requests)

/-- Model of Go `AnalyzeTraffic`: empty batches short-circuit to an empty list;
otherwise the metrics are computed once and the five detectors run in their
fixed order, each contributing at most one finding. -/
noncomputable def analyzeTraffic (d : Detector) (requests : List TrafficRequest)
    (env : RunEnv) : List Attack :=
  if requests.isEmpty then []
  else
    let metrics := calculateMetrics requests
    (detectSYNFlood d.thresholds env.synOrder metrics env.synID env.synNow).toList ++
    (detectHTTPFlood d.thresholds requests env.httpOrder metrics env.httpID env.httpNow).toList ++
    (detectSlowloris d.thresholds requests env.slowOrder env.slowID env.slowNow).toList ++
    (detectUDPFlood env.udpOrder metrics env.udpID env.udpNow).toList ++
    (detectRateAnomaly d.thresholds d.baseline env.rateOrder metrics env.rateID env.rateNow).toList

/-- Go's `int(x)` conversion on a `float64`: truncation toward zero. -/
noncomputable def goTrunc (x : ℝ) : ℤ :=
  if 0 ≤ x then ⌊x⌋ else ⌈x⌉

/-- Model of Go `UpdateBaseline`: exponential moving average with α = 0.1 on
four fields; the unique-IP average passes through Go's `int(...)` truncation.
`StandardDeviation` and `NormalIPRatioValue` are not touched. -/
noncomputable def UpdateBaseline (b : Baseline) (metrics : TrafficMetrics) : Baseline :=
  { b with
    AverageRequestRate :=
      0.1 * (metrics.TotalRequests : ℝ) + (1 - 0.1) * b.AverageRequestRate
    AverageUniqueIPs :=
      goTrunc (0.1 * (metrics.UniqueIPs : ℝ) + (1 - 0.1) * (b.AverageUniqueIPs : ℝ))
    AverageIPEntropy :=
      0.1 * metrics.IPEntropy + (1 - 0.1) * b.AverageIPEntropy
    AvgConnectionDuration :=
      0.1 * metrics.AvgConnDuration + (1 - 0.1) * b.AvgConnectionDuration }

/-- Iterated baseline updates with the same window metrics. -/
noncomputable def iterateUpdate (metrics : TrafficMetrics) : Nat → Baseline → Baseline
  | 0, b => b
  | n + 1, b => iterateUpdate metrics n (UpdateBaseline b metrics)

/-- Run-independent payload of a finding: everything except the fresh UUID, the
clock reading, and the map-iteration-dependent source-address selection (whose
length is still run-independent). -/
def SamePayload (a b : Attack) : Prop :=
  a.AttackType = b.AttackType ∧ a.Confidence = b.Confidence ∧ a.Severity = b.Severity ∧
  a.Description = b.Description ∧ a.SourceIPs.length = b.SourceIPs.length ∧
  a.Mitigated = b.Mitigated

/-- Lift a relation on findings to optional findings (emission must agree). -/
def OptionRel (r : Attack → Attack → Prop) : Option Attack → Option Attack → Prop
  | some a, some b => r a b
  | none, none => True
  | _, _ => False

/-! ### Concrete fixtures for witnesses and counterexamples -/

/-- A `TCP_SYN` request from the given source. -/
def mkSyn (ip : String) : TrafficRequest :=
  { ID := "", Timestamp := 0, SourceIP := ip, DestIP := "", SourcePort := 0, DestPort := 0,
    Protocol := "TCP_SYN", RequestPath := "", UserAgent := "", BytesSent := 0, BytesRecv := 0,
    StatusCode := 0, Duration := 0 }

/-- An `HTTP` request from the given source to the given path. -/
def mkHTTP (ip path : String) : TrafficRequest :=
  { ID := "", Timestamp := 0, SourceIP := ip, DestIP := "", SourcePort := 0, DestPort := 0,
    Protocol := "HTTP", RequestPath := path, UserAgent := "", BytesSent := 0, BytesRecv := 0,
    StatusCode := 0, Duration := 0 }

/-- The spec's SYN-flood example batch: 1500 SYN records from 3 distinct sources. -/
def reqs1500 : List TrafficRequest :=
  List.replicate 500 (mkSyn "10.0.0.1") ++
    (List.replicate 500 (mkSyn "10.0.0.2") ++ List.replicate 500 (mkSyn "10.0.0.3"))

/-- Two SYN records from one source (SYN count exactly at a floor of 2). -/
def reqs2 : List TrafficRequest := [mkSyn "10.0.0.1", mkSyn "10.0.0.1"]

/-- Threshold configuration with a SYN floor of 2 (boundary check). -/
noncomputable def thrSmall : Thresholds :=
  { RequestsPerSecond := 500, RequestRateZScore := 3, IPEntropyMin := 3,
    ConnectionsPerIP := 100, SlowConnectionTime := 30000, SYNFloodThreshold := 2,
    HTTPFloodThreshold := 2000 }

/-- Threshold configuration with an HTTP floor of 1. -/
noncomputable def thrHTTP1 : Thresholds :=
  { thrSmall with HTTPFloodThreshold := 1 }

/-- The seed baseline of `NewDetector` (average 100, standard deviation 15). -/
noncomputable def bSeed : Baseline :=
  { AverageRequestRate := 100, AverageUniqueIPs := 50, AverageIPEntropy := 5.5,
    StandardDeviation := 15, NormalIPRatioValue := 2, AvgConnectionDuration := 150 }

/-- Detector with the seed baseline and a SYN floor of 1. -/
noncomputable def dSmall : Detector :=
  { baseline := bSeed
    thresholds :=
      { RequestsPerSecond := 500, RequestRateZScore := 3, IPEntropyMin := 3,
        ConnectionsPerIP := 100, SlowConnectionTime := 30000, SYNFloodThreshold := 1,
        HTTPFloodThreshold := 2000 } }

/-- Three SYN records from sources a, b, a. -/
def reqsAB : List TrafficRequest := [mkSyn "a", mkSyn "b", mkSyn "a"]

/-- One valid environment for `reqsAB` (iteration order a then b). -/
def envAB1 : RunEnv :=
  { synOrder := ["a", "b"], httpOrder := [], slowOrder := [], udpOrder := [],
    rateOrder := [("a", 2), ("b", 1)], synID := "id-1", httpID := "id-2", slowID := "id-3",
    udpID := "id-4", rateID := "id-5", synNow := 11, httpNow := 12, slowNow := 13,
    udpNow := 14, rateNow := 15 }

/-- Another valid environment for `reqsAB`: a different map-iteration order for
the SYN source set, a different fresh UUID, a later clock reading. -/
def envAB2 : RunEnv :=
  { envAB1 with synOrder := ["b", "a"], synID := "id-9", synNow := 99 }

/-- One HTTP record (fixture for the HTTP-flood witness). -/
def reqH : List TrafficRequest := [mkHTTP "h" "/p"]

/-- Window metrics with total 200 and source entropy 1 (spec's rate example). -/
noncomputable def mRate1 : TrafficMetrics :=
  { TotalRequests := 200, UniqueIPs := 2, IPCounts := [("a", 100), ("b", 100)],
    ProtocolCounts := [], PathCounts := [], IPEntropy := 1, PathEntropy := 0,
    AvgConnDuration := 0, RequestsPerIP := 100, SYNPacketCount := 0 }

/-- The same window with source entropy 6 (spec's negative rate example). -/
noncomputable def mRate6 : TrafficMetrics :=
  { mRate1 with IPEntropy := 6 }

/-- Window metrics with 55 unique sources and total 200 (baseline examples). -/
noncomputable def mWin : TrafficMetrics :=
  { TotalRequests := 200, UniqueIPs := 55, IPCounts := [], ProtocolCounts := [],
    PathCounts := [], IPEntropy := 0, PathEntropy := 0, AvgConnDuration := 0,
    RequestsPerIP := 0, SYNPacketCount := 0 }

/-! ### Entropy lemmas -/

lemma foldl_entropy_eq (total : ℕ) (l : List (String × Nat)) (a : ℝ) :
    l.foldl
      (fun e p =>
        if 0 < p.2 then
          e - ((p.2 : ℝ) / (total : ℝ)) * Real.logb 2 ((p.2 : ℝ) / (total : ℝ))
        else e) a
      = a - ((l.filter (fun p => 0 < p.2)).map
          (fun p => ((p.2 : ℝ) / (total : ℝ)) * Real.logb 2 ((p.2 : ℝ) / (total : ℝ)))).sum := by
  induction l generalizing a with
  | nil => simp
  | cons x t ih =>
    rw [List.foldl_cons, List.filter_cons]
    by_cases hx : 0 < x.2
    · rw [if_pos hx, if_pos (by simpa using hx), List.map_cons, List.sum_cons, ih]
      ring
    · rw [if_neg hx, if_neg (by simpa using hx), ih]

lemma calculateEntropy_eq_shannon (counts : List (String × Nat)) :
    calculateEntropy counts = shannonEntropy counts := by
  unfold calculateEntropy shannonEntropy
  by_cases h : (counts.map Prod.snd).sum = 0
  · have hz : counts.filter (fun p => 0 < p.2) = [] := by
      rw [List.filter_eq_nil_iff]
      intro p hp
      have hp2 : p.2 = 0 := by
        have := (List.sum_eq_zero_iff).mp h (p.2) (List.mem_map_of_mem Prod.snd hp)
        exact this
      simp [hp2]
    simp [h, hz]
  · rw [if_neg h, foldl_entropy_eq]
    simp

lemma calculateEntropy_total_zero (counts : List (String × Nat))
    (h : (counts.map Prod.snd).sum = 0) : calculateEntropy counts = 0 := by
  unfold calculateEntropy
  simp [h]

lemma calculateEntropy_single (k : String) (c : Nat) : calculateEntropy [(k, c)] = 0 := by
  rcases Nat.eq_zero_or_pos c with hc | hc
  · simp [calculateEntropy, hc]
  · have hc0 : (c : ℝ) ≠ 0 := Nat.cast_ne_zero.mpr hc.ne'
    simp only [calculateEntropy, List.map_cons, List.map_nil, List.sum_cons, List.sum_nil,
      Nat.add_zero, List.foldl_cons, List.foldl_nil]
    rw [if_neg hc.ne', if_pos hc, div_self hc0, Real.logb_one]
    ring

lemma calculateEntropy_perm (l l' : List (String × Nat)) (h : l.Perm l') :
    calculateEntropy l = calculateEntropy l' := by
  rw [calculateEntropy_eq_shannon, calculateEntropy_eq_shannon]
  unfold shannonEntropy
  have ht : (l.map Prod.snd).sum = (l'.map Prod.snd).sum := (h.map Prod.snd).sum_eq
  rw [ht]
  exact congrArg Neg.neg ((List.Perm.map _ (h.filter _)).sum_eq)

lemma calculateEntropy_uniform (l : List (String × Nat)) (c : Nat) (hc : 0 < c)
    (hall : ∀ p ∈ l, p.2 = c) :
    calculateEntropy l = Real.logb 2 (l.length : ℝ) := by
  by_cases hl : l = []
  · subst hl
    simp [calculateEntropy, Real.logb, Real.log_zero]
  · have hk : 0 < l.length := List.length_pos.mpr hl
    have hmap : l.map Prod.snd = List.replicate l.length c := by
      rw [List.eq_replicate_iff]
      refine ⟨by simp, ?_⟩
      intro b hb
      obtain ⟨p, hp, rfl⟩ := List.mem_map.mp hb
      exact hall p hp
    have htot : (l.map Prod.snd).sum = l.length * c := by
      rw [hmap, List.sum_replicate, smul_eq_mul]
    have hkR : ((l.length : ℕ) : ℝ) ≠ 0 := Nat.cast_ne_zero.mpr hk.ne'
    have hcR : ((c : ℕ) : ℝ) ≠ 0 := Nat.cast_ne_zero.mpr hc.ne'
    have hfil : l.filter (fun p => 0 < p.2) = l :=
      List.filter_eq_self.mpr (fun p hp => by simp [hall p hp, hc])
    have harg : ∀ p ∈ l,
        ((p.2 : ℝ) / (((l.map Prod.snd).sum : ℕ) : ℝ)) = 1 / (l.length : ℝ) := by
      intro p hp
      rw [hall p hp, htot]
      push_cast
      rw [mul_comm, div_mul_eq_div_div]
      rw [div_self hcR]
    have hmap2 :
        ((l.filter (fun p => 0 < p.2)).map
          (fun p => ((p.2 : ℝ) / ((l.map Prod.snd).sum : ℝ)) *
            Real.logb 2 ((p.2 : ℝ) / ((l.map Prod.snd).sum : ℝ))))
        = List.replicate l.length
            ((1 / (l.length : ℝ)) * Real.logb 2 (1 / (l.length : ℝ))) := by
      rw [hfil, List.eq_replicate_iff]
      refine ⟨by simp, ?_⟩
      intro b hb
      obtain ⟨p, hp, rfl⟩ := List.mem_map.mp hb
      rw [harg p hp]
    rw [calculateEntropy_eq_shannon]
    unfold shannonEntropy
    rw [hmap2, List.sum_replicate, nsmul_eq_mul, one_div, Real.logb_inv]
    field_simp

/-! ### Tally lemmas -/

lemma keys_bump (l : List (String × Nat)) (k : String) :
    keys (bump l k) = if k ∈ keys l then keys l else keys l ++ [k] := by
  induction l with
  | nil => simp [bump, keys]
  | cons x t ih =>
    by_cases hx : x.1 = k
    · simp [bump, hx, keys]
    · have hne : k ≠ x.1 := fun h => hx h.symm
      have hb : bump (x :: t) k = (x.1, x.2) :: bump t k := by
        simp [bump, hx]
      rw [hb]
      simp only [keys, List.map_cons, List.mem_cons, hne, false_or] at ih ⊢
      by_cases hk : k ∈ List.map Prod.fst t
      · rw [if_pos hk] at ih
        rw [ih, if_pos hk]
      · rw [if_neg hk] at ih
        rw [ih, if_neg hk]
        simp

lemma keys_foldl_bump_nodup (ks : List String) :
    ∀ l : List (String × Nat), (keys l).Nodup → (keys (ks.foldl bump l)).Nodup := by
  induction ks with
  | nil => intro l h; simpa using h
  | cons k t ih =>
    intro l h
    rw [List.foldl_cons]
    apply ih
    rw [keys_bump]
    by_cases hk : k ∈ keys l
    · simpa [hk] using h
    · simp only [hk, if_false]
      simpa [List.nodup_append, hk] using h

lemma tally_keys_nodup (ks : List String) : (keys (tally ks)).Nodup :=
  keys_foldl_bump_nodup ks [] (by simp [keys])

lemma tally_nodup (ks : List String) : (tally ks).Nodup :=
  (tally_keys_nodup ks).of_map Prod.fst

lemma bump_notMem (l : List (String × Nat)) (k : String) (h : k ∉ keys l) :
    bump l k = l ++ [(k, 1)] := by
  induction l with
  | nil => simp [bump]
  | cons x t ih =>
    have hx : ¬x.1 = k := by
      intro hk
      exact h (by simp [keys, hk])
    rw [show bump (x :: t) k = if x.1 = k then (x.1, x.2 + 1) :: t else (x.1, x.2) :: bump t k
      from rfl]
    rw [if_neg hx, ih (fun hm => h (by simp [keys]; right; simpa [keys] using hm))]
    simp

lemma bump_append_last (l : List (String × Nat)) (k : String) (c : Nat) (h : k ∉ keys l) :
    bump (l ++ [(k, c)]) k = l ++ [(k, c + 1)] := by
  induction l with
  | nil => simp [bump]
  | cons x t ih =>
    have hx : ¬x.1 = k := by
      intro hk
      exact h (by simp [keys, hk])
    simp only [List.cons_append]
    rw [show bump ((x.1, x.2) :: (t ++ [(k, c)])) k
        = if x.1 = k then (x.1, x.2 + 1) :: (t ++ [(k, c)]) else (x.1, x.2) :: bump (t ++ [(k, c)]) k
      from rfl]
    rw [if_neg hx, ih (fun hm => h (by simp [keys]; right; simpa [keys] using hm))]

lemma foldl_bump_replicate (l : List (String × Nat)) (k : String) (c n : Nat)
    (h : k ∉ keys l) :
    List.foldl bump (l ++ [(k, c)]) (List.replicate n k) = l ++ [(k, c + n)] := by
  induction n generalizing c with
  | zero => simp
  | succ n ih =>
    rw [List.replicate_succ, List.foldl_cons, bump_append_last l k c h, ih (c + 1)]
    simp [Nat.add_assoc, Nat.add_comm 1 n]

lemma foldl_bump_replicate_start (l : List (String × Nat)) (k : String) (n : Nat)
    (hn : 0 < n) (h : k ∉ keys l) :
    List.foldl bump l (List.replicate n k) = l ++ [(k, n)] := by
  obtain ⟨m, rfl⟩ := Nat.exists_eq_succ_of_ne_zero hn.ne'
  rw [List.replicate_succ, List.foldl_cons, bump_notMem l k h]
  simpa [Nat.add_comm] using foldl_bump_replicate l k 1 m h

/-! ### Selection-sort (`getTopIPs`) lemmas -/

lemma bubbleStep_perm (a : String × Nat) (t : List (String × Nat)) :
    ((bubbleStep a t).1 :: (bubbleStep a t).2).Perm (a :: t) := by
  induction t generalizing a with
  | nil => simp [bubbleStep]
  | cons b t ih =>
    by_cases h : a.2 < b.2
    · simp only [bubbleStep, if_pos h]
      exact (List.Perm.swap _ _ _).trans ((ih b).cons a)
    · simp only [bubbleStep, if_neg h]
      exact (List.Perm.swap _ _ _).trans (((ih a).cons b).trans (List.Perm.swap _ _ _))

lemma bubbleStep_le (a : String × Nat) (t : List (String × Nat)) :
    ∀ x ∈ a :: t, x.2 ≤ (bubbleStep a t).1.2 := by
  induction t generalizing a with
  | nil =>
    intro x hx
    simp only [List.mem_cons, List.not_mem_nil, or_false] at hx
    subst hx
    simp [bubbleStep]
  | cons b t ih =>
    intro x hx
    simp only [List.mem_cons] at hx
    by_cases h : a.2 < b.2
    · simp only [bubbleStep, if_pos h]
      rcases hx with rfl | rfl | hx
      · exact le_of_lt (lt_of_lt_of_le h (ih b b (by simp)))
      · exact ih x x (by simp)
      · exact ih b x (by simp [hx])
    · push_neg at h
      simp only [bubbleStep, if_neg (not_lt.mpr h)]
      rcases hx with rfl | rfl | hx
      · exact ih x x (by simp)
      · exact le_trans h (ih a a (by simp))
      · exact ih a x (by simp [hx])

lemma selectTop_perm (n : Nat) (l : List (String × Nat)) : (selectTop n l).Perm l := by
  induction n generalizing l with
  | zero => simp [selectTop]
  | succ n ih =>
    cases l with
    | nil => simp [selectTop]
    | cons a t =>
      simp only [selectTop]
      exact ((ih _).cons _).trans (bubbleStep_perm a t)

lemma selectTop_length (n : Nat) (l : List (String × Nat)) :
    (selectTop n l).length = l.length := (selectTop_perm n l).length_eq

lemma selectTop_sorted_dominates (n : Nat) (l : List (String × Nat)) :
    List.Chain' (fun p q : String × Nat => q.2 ≤ p.2) ((selectTop n l).take (min n l.length)) ∧
    ∀ p ∈ (selectTop n l).take (min n l.length),
      ∀ q ∈ (selectTop n l).drop (min n l.length), q.2 ≤ p.2 := by
  induction n generalizing l with
  | zero => simp
  | succ n ih =>
    cases l with
    | nil => simp [selectTop]
    | cons a t =>
      have hperm := bubbleStep_perm a t
      have hlen : (bubbleStep a t).2.length = t.length := by
        have := hperm.length_eq
        simpa using this
      have hmax : ∀ y ∈ (bubbleStep a t).2, y.2 ≤ (bubbleStep a t).1.2 := by
        intro y hy
        exact bubbleStep_le a t y (hperm.subset (List.mem_cons_of_mem _ hy))
      have hmem : ∀ y ∈ selectTop n (bubbleStep a t).2, y.2 ≤ (bubbleStep a t).1.2 := by
        intro y hy
        exact hmax y ((selectTop_perm n _).subset hy)
      obtain ⟨ihc, ihd⟩ := ih (bubbleStep a t).2
      rw [hlen] at ihc ihd
      simp only [selectTop, List.length_cons, Nat.succ_min_succ, List.take_succ_cons,
        List.drop_succ_cons]
      constructor
      · rw [List.chain'_cons']
        refine ⟨?_, ihc⟩
        intro b hb
        have hbmem : b ∈ (selectTop n (bubbleStep a t).2).take (min n t.length) :=
          List.mem_of_mem_head? hb
        exact hmem b (List.take_subset _ _ hbmem)
      · intro p hp q hq
        rcases List.mem_cons.mp hp with rfl | hp
        · exact hmem q (List.drop_subset _ _ hq)
        · exact ihd p hp q hq

lemma getTopIPs_length (l : List (String × Nat)) (n : Nat) :
    (getTopIPs l n).length = min n l.length := by
  rw [getTopIPs, List.length_map, List.length_take, selectTop_length,
    Nat.min_eq_left (Nat.min_le_right n l.length)]

/-! ### Detector normal forms -/

lemma detectSYNFlood_eq (thr : Thresholds) (synOrder : List String)
    (m : TrafficMetrics) (id : String) (now : Nat) :
    detectSYNFlood thr synOrder m id now =
      if thr.SYNFloodThreshold < m.SYNPacketCount ∧ synOrder.length < 10 then
        some
          { ID := id
            AttackType := "SYN_FLOOD"
            Severity := getSeverity
              (min ((m.SYNPacketCount : ℝ) / ((thr.SYNFloodThreshold * 2 : Nat) : ℝ)) 1)
            Confidence := min ((m.SYNPacketCount : ℝ) / ((thr.SYNFloodThreshold * 2 : Nat) : ℝ)) 1
            StartTime := now
            EndTime := none
            SourceIPs := synOrder
            TargetIPs := []
            Description := .synFlood m.SYNPacketCount synOrder.length
            MetricsSnapshot := none
            Mitigated := false }
      else none := by
  unfold detectSYNFlood
  by_cases h1 : m.SYNPacketCount < thr.SYNFloodThreshold
  · rw [if_pos h1, if_neg]
    rintro ⟨h2, -⟩
    omega
  · rw [if_neg h1]

lemma detectHTTPFlood_eq (thr : Thresholds) (requests : List TrafficRequest)
    (httpOrder : List (String × Nat)) (m : TrafficMetrics) (id : String) (now : Nat) :
    detectHTTPFlood thr requests httpOrder m id now =
      if thr.HTTPFloodThreshold ≤ httpCountOf requests ∧ m.PathEntropy < 2 then
        some
          { ID := id
            AttackType := "HTTP_FLOOD"
            Severity := getSeverity
              (min ((httpCountOf requests : ℝ) / ((thr.HTTPFloodThreshold * 2 : Nat) : ℝ)) 1)
            Confidence := min ((httpCountOf requests : ℝ) / ((thr.HTTPFloodThreshold * 2 : Nat) : ℝ)) 1
            StartTime := now
            EndTime := none
            SourceIPs := getTopIPs httpOrder 20
            TargetIPs := []
            Description := .httpFlood (httpCountOf requests) m.PathEntropy
            MetricsSnapshot := none
            Mitigated := false }
      else none := by
  simp only [detectHTTPFlood]
  by_cases h1 : httpCountOf requests < thr.HTTPFloodThreshold
  · rw [if_pos h1, if_neg]
    rintro ⟨h2, -⟩
    omega
  · rw [if_neg h1]
    by_cases h2 : m.PathEntropy < 2
    · rw [if_pos h2, if_pos ⟨Nat.le_of_not_lt h1, h2⟩]
    · rw [if_neg h2, if_neg (by rintro ⟨-, h⟩; exact h2 h)]

lemma detectSlowloris_eq (thr : Thresholds) (requests : List TrafficRequest)
    (slowOrder : List String) (id : String) (now : Nat) :
    detectSlowloris thr requests slowOrder id now =
      if 100 < slowCountOf thr requests ∧ slowOrder.length < 10 then
        some
          { ID := id
            AttackType := "SLOWLORIS"
            Severity := getSeverity (min ((slowCountOf thr requests : ℝ) / 300) 1)
            Confidence := min ((slowCountOf thr requests : ℝ) / 300) 1
            StartTime := now
            EndTime := none
            SourceIPs := slowOrder
            TargetIPs := []
            Description := .slowloris (slowCountOf thr requests) slowOrder.length
            MetricsSnapshot := none
            Mitigated := false }
      else none := by
  simp only [detectSlowloris]

lemma detectUDPFlood_eq (udpOrder : List (String × Nat)) (m : TrafficMetrics)
    (id : String) (now : Nat) :
    detectUDPFlood udpOrder m id now =
      if 2000 ≤ lookupCount m.ProtocolCounts "UDP" then
        some
          { ID := id
            AttackType := "UDP_FLOOD"
            Severity := getSeverity (min ((lookupCount m.ProtocolCounts "UDP" : ℝ) / 5000) 1)
            Confidence := min ((lookupCount m.ProtocolCounts "UDP" : ℝ) / 5000) 1
            StartTime := now
            EndTime := none
            SourceIPs := getTopIPs udpOrder 20
            TargetIPs := []
            Description := .udpFlood (lookupCount m.ProtocolCounts "UDP") udpOrder.length
            MetricsSnapshot := none
            Mitigated := false }
      else none := by
  simp only [detectUDPFlood]
  by_cases h : lookupCount m.ProtocolCounts "UDP" < 2000
  · rw [if_pos h, if_neg (by omega)]
  · rw [if_neg h, if_pos (Nat.le_of_not_lt h)]

lemma detectRateAnomaly_eq (thr : Thresholds) (baseline : Baseline)
    (rateOrder : List (String × Nat)) (m : TrafficMetrics) (id : String) (now : Nat) :
    detectRateAnomaly thr baseline rateOrder m id now =
      if thr.RequestRateZScore < zScoreOf baseline m ∧ m.IPEntropy < thr.IPEntropyMin then
        some
          { ID := id
            AttackType := "RATE_ANOMALY"
            Severity := getSeverity (min (zScoreOf baseline m / 6) 1)
            Confidence := min (zScoreOf baseline m / 6) 1
            StartTime := now
            EndTime := none
            SourceIPs := getTopIPs rateOrder 20
            TargetIPs := []
            Description := .rateAnomaly (m.TotalRequests : ℝ) (zScoreOf baseline m) m.IPEntropy
            MetricsSnapshot := none
            Mitigated := false }
      else none := by
  simp only [detectRateAnomaly]
  by_cases h1 : thr.RequestRateZScore < zScoreOf baseline m
  · rw [if_pos h1]
    by_cases h2 : m.IPEntropy < thr.IPEntropyMin
    · rw [if_pos h2, if_pos ⟨h1, h2⟩]
    · rw [if_neg h2, if_neg (by rintro ⟨-, h⟩; exact h2 h)]
  · rw [if_neg h1, if_neg (by rintro ⟨h, -⟩; exact h1 h)]

/-! ### Metric projections -/

lemma calculateMetrics_SYNPacketCount (rs : List TrafficRequest) :
    (calculateMetrics rs).SYNPacketCount = synCountOf rs := rfl

lemma calculateMetrics_PathEntropy (rs : List TrafficRequest) :
    (calculateMetrics rs).PathEntropy = calculateEntropy (pathTally rs) := rfl

lemma calculateMetrics_IPEntropy (rs : List TrafficRequest) :
    (calculateMetrics rs).IPEntropy = calculateEntropy (ipTally rs) := rfl

lemma calculateMetrics_TotalRequests (rs : List TrafficRequest) :
    (calculateMetrics rs).TotalRequests = rs.length := rfl

lemma calculateMetrics_ProtocolCounts (rs : List TrafficRequest) :
    (calculateMetrics rs).ProtocolCounts = protocolTally rs := rfl

lemma calculateMetrics_IPCounts (rs : List TrafficRequest) :
    (calculateMetrics rs).IPCounts = ipTally rs := rfl

/-! ### Claim C8 -/

/-- C8: invoking the baseline adapter leaves the baseline's standard-deviation
field unchanged (it stays at its seed value); the never-adapted normal-ratio
field is likewise untouched, so only the four averaged fields may change. -/
theorem C8_stddev_frame (b : Baseline) (m : TrafficMetrics) :
    (UpdateBaseline b m).StandardDeviation = b.StandardDeviation ∧
    (UpdateBaseline b m).NormalIPRatioValue = b.NormalIPRatioValue :=
  ⟨rfl, rfl⟩

/-! ### Claim C9 -/

/-- C9: an empty input batch short-circuits the analysis entry point: no
metrics are computed, no detector runs, and the finding list is empty. -/
theorem C9_empty_batch (d : Detector) (env : RunEnv) :
    analyzeTraffic d [] env = [] := rfl

/-! ### Claim C7 -/

/-- C7 counterexample: with prior unique-source average 50 and a window with 55
unique sources, the claimed new value is 0.1·55 + 0.9·50 = 50.5, but the code
stores Go `int(50.5)` = 50, so the unique-source field does not equal the
exponential-moving-average value. -/
theorem C7_counterexample :
    (UpdateBaseline bSeed mWin).AverageUniqueIPs = 50 ∧
    0.1 * ((mWin.UniqueIPs : ℕ) : ℝ) + (1 - 0.1) * ((bSeed.AverageUniqueIPs : ℤ) : ℝ) = 50.5 ∧
    (((UpdateBaseline bSeed mWin).AverageUniqueIPs : ℝ) ≠
      0.1 * ((mWin.UniqueIPs : ℕ) : ℝ) + (1 - 0.1) * ((bSeed.AverageUniqueIPs : ℤ) : ℝ)) := by
  have harg : 0.1 * ((mWin.UniqueIPs : ℕ) : ℝ) + (1 - 0.1) * ((bSeed.AverageUniqueIPs : ℤ) : ℝ)
      = 50.5 := by
    show 0.1 * ((55 : ℕ) : ℝ) + (1 - 0.1) * ((50 : ℤ) : ℝ) = 50.5
    norm_num
  have hfield : (UpdateBaseline bSeed mWin).AverageUniqueIPs = 50 := by
    show goTrunc (0.1 * ((55 : ℕ) : ℝ) + (1 - 0.1) * ((50 : ℤ) : ℝ)) = 50
    have h5 : (0.1 : ℝ) * ((55 : ℕ) : ℝ) + (1 - 0.1) * ((50 : ℤ) : ℝ) = 50.5 := by norm_num
    rw [goTrunc, h5, if_pos (by norm_num)]
    rw [Int.floor_eq_iff]
    constructor
    · norm_num
    · norm_num
  refine ⟨hfield, harg, ?_⟩
  rw [hfield, harg]
  norm_num

/-- C7 (amended): the adapter performs `new = 0.1·current + 0.9·old`
independently on the four adapted fields, except that the unique-source
average is additionally truncated to an integer by Go's `int(...)` conversion;
the request-rate average after `n` identical windows is
`total + 0.9^n·(start − total)`, converging geometrically to the window value. -/
theorem C7_baseline_ema (b : Baseline) (m : TrafficMetrics) :
    (UpdateBaseline b m).AverageRequestRate
        = 0.1 * (m.TotalRequests : ℝ) + (1 - 0.1) * b.AverageRequestRate ∧
    (UpdateBaseline b m).AverageIPEntropy
        = 0.1 * m.IPEntropy + (1 - 0.1) * b.AverageIPEntropy ∧
    (UpdateBaseline b m).AvgConnectionDuration
        = 0.1 * m.AvgConnDuration + (1 - 0.1) * b.AvgConnectionDuration ∧
    (UpdateBaseline b m).AverageUniqueIPs
        = goTrunc (0.1 * (m.UniqueIPs : ℝ) + (1 - 0.1) * (b.AverageUniqueIPs : ℝ)) ∧
    ∀ n : Nat, (iterateUpdate m n b).AverageRequestRate
        = (m.TotalRequests : ℝ) + (1 - 0.1) ^ n * (b.AverageRequestRate - (m.TotalRequests : ℝ)) := by
  refine ⟨rfl, rfl, rfl, rfl, ?_⟩
  intro n
  induction n generalizing b with
  | zero => simp [iterateUpdate]
  | succ n ih =>
    have hstep : (UpdateBaseline b m).AverageRequestRate
        = 0.1 * (m.TotalRequests : ℝ) + (1 - 0.1) * b.AverageRequestRate := rfl
    rw [show iterateUpdate m (n + 1) b = iterateUpdate m n (UpdateBaseline b m) from rfl,
      ih (UpdateBaseline b m), hstep, pow_succ]
    ring

/-! ### Detector inversion lemmas -/

lemma detectSYNFlood_inv (thr : Thresholds) (σ : List String) (m : TrafficMetrics)
    (id : String) (now : Nat) :
    ∀ a, detectSYNFlood thr σ m id now = some a →
      a.AttackType = "SYN_FLOOD" ∧
      a.Confidence = min ((m.SYNPacketCount : ℝ) / ((thr.SYNFloodThreshold * 2 : Nat) : ℝ)) 1 ∧
      a.Severity = getSeverity a.Confidence ∧ a.Mitigated = false ∧ a.SourceIPs = σ ∧
      a.ID = id ∧ a.StartTime = now ∧
      a.Description = .synFlood m.SYNPacketCount σ.length ∧
      (thr.SYNFloodThreshold < m.SYNPacketCount ∧ σ.length < 10) := by
  intro a h
  rw [detectSYNFlood_eq] at h
  by_cases hc : thr.SYNFloodThreshold < m.SYNPacketCount ∧ σ.length < 10
  · rw [if_pos hc] at h
    cases h
    exact ⟨rfl, rfl, rfl, rfl, rfl, rfl, rfl, rfl, hc⟩
  · rw [if_neg hc] at h
    simp at h

lemma detectHTTPFlood_inv (thr : Thresholds) (requests : List TrafficRequest)
    (σ : List (String × Nat)) (m : TrafficMetrics) (id : String) (now : Nat) :
    ∀ a, detectHTTPFlood thr requests σ m id now = some a →
      a.AttackType = "HTTP_FLOOD" ∧
      a.Confidence = min ((httpCountOf requests : ℝ) / ((thr.HTTPFloodThreshold * 2 : Nat) : ℝ)) 1 ∧
      a.Severity = getSeverity a.Confidence ∧ a.Mitigated = false ∧
      a.SourceIPs = getTopIPs σ 20 ∧ a.ID = id ∧ a.StartTime = now ∧
      a.Description = .httpFlood (httpCountOf requests) m.PathEntropy ∧
      (thr.HTTPFloodThreshold ≤ httpCountOf requests ∧ m.PathEntropy < 2) := by
  intro a h
  rw [detectHTTPFlood_eq] at h
  by_cases hc : thr.HTTPFloodThreshold ≤ httpCountOf requests ∧ m.PathEntropy < 2
  · rw [if_pos hc] at h
    cases h
    exact ⟨rfl, rfl, rfl, rfl, rfl, rfl, rfl, rfl, hc⟩
  · rw [if_neg hc] at h
    simp at h

lemma detectSlowloris_inv (thr : Thresholds) (requests : List TrafficRequest)
    (σ : List String) (id : String) (now : Nat) :
    ∀ a, detectSlowloris thr requests σ id now = some a →
      a.AttackType = "SLOWLORIS" ∧
      a.Confidence = min ((slowCountOf thr requests : ℝ) / 300) 1 ∧
      a.Severity = getSeverity a.Confidence ∧ a.Mitigated = false ∧ a.SourceIPs = σ ∧
      a.Description = .slowloris (slowCountOf thr requests) σ.length ∧
      (100 < slowCountOf thr requests ∧ σ.length < 10) := by
  intro a h
  rw [detectSlowloris_eq] at h
  by_cases hc : 100 < slowCountOf thr requests ∧ σ.length < 10
  · rw [if_pos hc] at h
    cases h
    exact ⟨rfl, rfl, rfl, rfl, rfl, rfl, hc⟩
  · rw [if_neg hc] at h
    simp at h

lemma detectUDPFlood_inv (σ : List (String × Nat)) (m : TrafficMetrics)
    (id : String) (now : Nat) :
    ∀ a, detectUDPFlood σ m id now = some a →
      a.AttackType = "UDP_FLOOD" ∧
      a.Confidence = min ((lookupCount m.ProtocolCounts "UDP" : ℝ) / 5000) 1 ∧
      a.Severity = getSeverity a.Confidence ∧ a.Mitigated = false ∧
      a.SourceIPs = getTopIPs σ 20 ∧
      a.Description = .udpFlood (lookupCount m.ProtocolCounts "UDP") σ.length ∧
      2000 ≤ lookupCount m.ProtocolCounts "UDP" := by
  intro a h
  rw [detectUDPFlood_eq] at h
  by_cases hc : 2000 ≤ lookupCount m.ProtocolCounts "UDP"
  · rw [if_pos hc] at h
    cases h
    exact ⟨rfl, rfl, rfl, rfl, rfl, rfl, hc⟩
  · rw [if_neg hc] at h
    simp at h

lemma detectRateAnomaly_inv (thr : Thresholds) (baseline : Baseline)
    (σ : List (String × Nat)) (m : TrafficMetrics) (id : String) (now : Nat) :
    ∀ a, detectRateAnomaly thr baseline σ m id now = some a →
      a.AttackType = "RATE_ANOMALY" ∧
      a.Confidence = min (zScoreOf baseline m / 6) 1 ∧
      a.Severity = getSeverity a.Confidence ∧ a.Mitigated = false ∧
      a.SourceIPs = getTopIPs σ 20 ∧
      a.Description = .rateAnomaly (m.TotalRequests : ℝ) (zScoreOf baseline m) m.IPEntropy ∧
      (thr.RequestRateZScore < zScoreOf baseline m ∧ m.IPEntropy < thr.IPEntropyMin) := by
  intro a h
  rw [detectRateAnomaly_eq] at h
  by_cases hc : thr.RequestRateZScore < zScoreOf baseline m ∧ m.IPEntropy < thr.IPEntropyMin
  · rw [if_pos hc] at h
    cases h
    exact ⟨rfl, rfl, rfl, rfl, rfl, rfl, hc⟩
  · rw [if_neg hc] at h
    simp at h

lemma toList_type_sublist {o : Option Attack} {ty : String}
    (h : ∀ a, o = some a → a.AttackType = ty) :
    (o.toList.map Attack.AttackType).Sublist [ty] := by
  cases o with
  | none => simp
  | some a => simp [h a rfl]

/-! ### Replicate-batch computations -/

lemma filter_syn_replicate (ip : String) (n : Nat) :
    (List.replicate n (mkSyn ip)).filter (fun r => r.Protocol = "TCP_SYN")
      = List.replicate n (mkSyn ip) := by
  apply List.filter_eq_self.mpr
  intro r hr
  rw [List.eq_of_mem_replicate hr]
  simp [mkSyn]

lemma synCountOf_replicate (ip : String) (n : Nat) :
    synCountOf (List.replicate n (mkSyn ip)) = n := by
  unfold synCountOf
  rw [List.countP_eq_length_filter, filter_syn_replicate, List.length_replicate]

lemma synCountOf_reqs1500 : synCountOf reqs1500 = 1500 := by
  have h1 := synCountOf_replicate "10.0.0.1" 500
  have h2 := synCountOf_replicate "10.0.0.2" 500
  have h3 := synCountOf_replicate "10.0.0.3" 500
  unfold synCountOf at h1 h2 h3 ⊢
  unfold reqs1500
  rw [List.countP_append, List.countP_append, h1, h2, h3]

lemma synIPs_reqs1500 : synIPs reqs1500 = ["10.0.0.1", "10.0.0.2", "10.0.0.3"] := by
  unfold synIPs reqs1500
  rw [List.filter_append, List.filter_append, filter_syn_replicate, filter_syn_replicate,
    filter_syn_replicate, List.map_append, List.map_append, List.map_replicate,
    List.map_replicate, List.map_replicate]
  unfold tally
  rw [List.foldl_append, List.foldl_append]
  rw [foldl_bump_replicate_start [] ((mkSyn "10.0.0.1").SourceIP) 500 (by norm_num)
    (by simp [keys])]
  rw [List.nil_append]
  rw [foldl_bump_replicate_start _ ((mkSyn "10.0.0.2").SourceIP) 500 (by norm_num) (by decide)]
  rw [foldl_bump_replicate_start _ ((mkSyn "10.0.0.3").SourceIP) 500 (by norm_num) (by decide)]
  rfl

/-! ### Claim C1 -/

/-- C1 counterexample: (i) with a SYN floor of 2 and a batch whose SYN count is
exactly 2 from one source, the claimed trigger condition (count ≥ floor, fewer
than 10 sources) holds, yet the code emits nothing — the code requires the
count to be strictly greater than the floor; (ii) on the claimed example
(1500 SYN records from 3 sources, floor 1000) the finding's severity is HIGH,
not MEDIUM, because confidence 0.75 ≥ 0.7. -/
theorem C1_counterexample :
    (synCountOf reqs2 = thrSmall.SYNFloodThreshold ∧ (synIPs reqs2).length < 10 ∧
      detectSYNFlood thrSmall (synIPs reqs2) (calculateMetrics reqs2) "id-c" 0 = none) ∧
    ((detectSYNFlood NewDetector.thresholds (synIPs reqs1500) (calculateMetrics reqs1500)
        "id-d" 0).map Attack.Severity = some "HIGH") ∧
    ("HIGH" : String) ≠ "MEDIUM" := by
  refine ⟨⟨rfl, by decide, ?_⟩, ?_, by decide⟩
  · rw [detectSYNFlood_eq, if_neg]
    rintro ⟨h, -⟩
    rw [calculateMetrics_SYNPacketCount] at h
    have he : synCountOf reqs2 = 2 := rfl
    have ht : thrSmall.SYNFloodThreshold = 2 := rfl
    omega
  · have hthr : NewDetector.thresholds.SYNFloodThreshold = 1000 := rfl
    rw [detectSYNFlood_eq, calculateMetrics_SYNPacketCount, synCountOf_reqs1500,
      synIPs_reqs1500, hthr, if_pos (by norm_num)]
    have hcast : ((1000 * 2 : ℕ) : ℝ) = 2000 := by norm_num
    have hconf : min ((1500 : ℕ) / ((1000 * 2 : ℕ) : ℝ) : ℝ) 1 = 0.75 := by
      rw [hcast]
      norm_num
    simp only [Option.map_some']
    rw [hconf]
    unfold getSeverity
    rw [if_neg (by norm_num), if_pos (by norm_num)]

/-- C1 (amended): the SYN-flood detector emits a finding exactly when the
count of TCP_SYN records is STRICTLY GREATER than the configured SYN-count
floor and the number of distinct SYN source addresses is below 10; when it
emits, confidence = min(synCount / (2·floor), 1) and severity is the shared
step function of that confidence (so the 1500-record, 3-address, floor-1000
example triggers with confidence 0.75 and severity HIGH). -/
theorem C1_syn_flood (thr : Thresholds) (requests : List TrafficRequest) (σ : List String)
    (id : String) (now : Nat) (hσ : σ.Perm (synIPs requests)) :
    (detectSYNFlood thr σ (calculateMetrics requests) id now ≠ none ↔
      (thr.SYNFloodThreshold < synCountOf requests ∧ (synIPs requests).length < 10)) ∧
    ∀ a, detectSYNFlood thr σ (calculateMetrics requests) id now = some a →
      a.Confidence = min ((synCountOf requests : ℝ) / ((thr.SYNFloodThreshold * 2 : Nat) : ℝ)) 1 ∧
      a.Severity = getSeverity a.Confidence ∧
      a.AttackType = "SYN_FLOOD" ∧ a.SourceIPs.Perm (synIPs requests) := by
  have hlen := hσ.length_eq
  constructor
  · rw [detectSYNFlood_eq, calculateMetrics_SYNPacketCount, hlen]
    by_cases hc : thr.SYNFloodThreshold < synCountOf requests ∧ (synIPs requests).length < 10
    · rw [if_pos hc]
      simp [hc]
    · rw [if_neg hc]
      simp [hc]
  · intro a h
    obtain ⟨hty, hconf, hsev, -, hsrc, -⟩ :=
      detectSYNFlood_inv thr σ (calculateMetrics requests) id now a h
    refine ⟨?_, hsev, hty, ?_⟩
    · rw [hconf, calculateMetrics_SYNPacketCount]
    · rw [hsrc]
      exact hσ

/-- C1 witness: the amended theorem applied to the 1500-record example. -/
theorem C1_witness :
    detectSYNFlood NewDetector.thresholds (synIPs reqs1500) (calculateMetrics reqs1500)
      "id-w" 7 ≠ none := by
  refine (C1_syn_flood NewDetector.thresholds reqs1500 (synIPs reqs1500) "id-w" 7
    (List.Perm.refl _)).1.mpr ⟨?_, ?_⟩
  · rw [synCountOf_reqs1500]
    show (1000 : ℕ) < 1500
    norm_num
  · rw [synIPs_reqs1500]
    norm_num

/-! ### Claim C4 -/

/-- C4: the HTTP-flood detector emits exactly when the HTTP-tagged record
count is at least the configured floor and the path-distribution entropy is
below 2 bits; when it emits, confidence = min(httpCount/(2·floor), 1) and the
source list is the top-20 selection over the HTTP source tally: its length is
min(20, number of distinct HTTP sources), its entries are actual tally
entries listed with counts in non-increasing order, and every unselected
tally entry has a count no larger than any selected one. -/
theorem C4_http_flood (thr : Thresholds) (requests : List TrafficRequest)
    (σ : List (String × Nat)) (id : String) (now : Nat)
    (hσ : σ.Perm (httpTally requests)) :
    (detectHTTPFlood thr requests σ (calculateMetrics requests) id now ≠ none ↔
      (thr.HTTPFloodThreshold ≤ httpCountOf requests ∧
        calculateEntropy (pathTally requests) < 2)) ∧
    ∀ a, detectHTTPFlood thr requests σ (calculateMetrics requests) id now = some a →
      a.Confidence = min ((httpCountOf requests : ℝ) / ((thr.HTTPFloodThreshold * 2 : Nat) : ℝ)) 1 ∧
      a.Severity = getSeverity a.Confidence ∧ a.AttackType = "HTTP_FLOOD" ∧
      a.SourceIPs = getTopIPs σ 20 ∧
      a.SourceIPs.length = min 20 (httpTally requests).length ∧
      (∃ sel : List (String × Nat),
        a.SourceIPs = keys sel ∧
        List.Chain' (fun p q => q.2 ≤ p.2) sel ∧
        (∀ p ∈ sel, p ∈ httpTally requests) ∧
        (∀ q ∈ httpTally requests, q ∉ sel → ∀ p ∈ sel, q.2 ≤ p.2)) := by
  have hlen : σ.length = (httpTally requests).length := hσ.length_eq
  constructor
  · rw [detectHTTPFlood_eq, calculateMetrics_PathEntropy]
    by_cases hc : thr.HTTPFloodThreshold ≤ httpCountOf requests ∧
        calculateEntropy (pathTally requests) < 2
    · rw [if_pos hc]
      simp [hc]
    · rw [if_neg hc]
      simp [hc]
  · intro a h
    obtain ⟨hty, hconf, hsev, -, hsrc, -, -, -, -⟩ :=
      detectHTTPFlood_inv thr requests σ (calculateMetrics requests) id now a h
    refine ⟨hconf, hsev, hty, hsrc, ?_, ?_⟩
    · rw [hsrc, getTopIPs_length, hlen]
    · refine ⟨(selectTop 20 σ).take (min 20 σ.length), ?_, ?_, ?_, ?_⟩
      · rw [hsrc]
        rfl
      · exact (selectTop_sorted_dominates 20 σ).1
      · intro p hp
        exact hσ.subset ((selectTop_perm 20 σ).subset (List.take_subset _ _ hp))
      · intro q hq hqn p hp
        have hqσ : q ∈ selectTop 20 σ :=
          (selectTop_perm 20 σ).symm.subset (hσ.symm.subset hq)
        have hsplit : q ∈ (selectTop 20 σ).take (min 20 σ.length) ∨
            q ∈ (selectTop 20 σ).drop (min 20 σ.length) := by
          rw [← List.take_append_drop (min 20 σ.length) (selectTop 20 σ)] at hqσ
          exact List.mem_append.mp hqσ
        rcases hsplit with h' | h'
        · exact absurd h' hqn
        · exact (selectTop_sorted_dominates 20 σ).2 p hp q h'

/-- C4 witness: one HTTP record with floor 1 — the single path gives entropy
0 < 2 and the count reaches the floor, so the detector fires. -/
theorem C4_witness :
    detectHTTPFlood thrHTTP1 reqH (httpTally reqH) (calculateMetrics reqH) "id-h" 3 ≠ none := by
  refine (C4_http_flood thrHTTP1 reqH (httpTally reqH) "id-h" 3 (List.Perm.refl _)).1.mpr
    ⟨?_, ?_⟩
  · have h1 : thrHTTP1.HTTPFloodThreshold = 1 := rfl
    have h2 : httpCountOf reqH = 1 := rfl
    omega
  · have hp : pathTally reqH = [("/p", 1)] := rfl
    rw [hp, calculateEntropy_single]
    norm_num

/-! ### Claim C5 -/

/-- C5: the rate-anomaly detector computes z = (window total − baseline
average)/baseline standard deviation and emits exactly when z exceeds the
configured z-score threshold and the source-address entropy is below the
configured entropy floor; when it emits, confidence = min(z/6, 1) and severity
is the shared step function (stated for a positive standard deviation, where
the real-valued model agrees with Go's float division). -/
theorem C5_rate_anomaly (thr : Thresholds) (baseline : Baseline) (m : TrafficMetrics)
    (σ : List (String × Nat)) (id : String) (now : Nat)
    (_hstd : 0 < baseline.StandardDeviation) :
    (detectRateAnomaly thr baseline σ m id now ≠ none ↔
      (thr.RequestRateZScore <
          ((m.TotalRequests : ℝ) - baseline.AverageRequestRate) / baseline.StandardDeviation ∧
        m.IPEntropy < thr.IPEntropyMin)) ∧
    ∀ a, detectRateAnomaly thr baseline σ m id now = some a →
      a.Confidence = min ((((m.TotalRequests : ℝ) - baseline.AverageRequestRate) /
          baseline.StandardDeviation) / 6) 1 ∧
      a.Severity = getSeverity a.Confidence ∧ a.AttackType = "RATE_ANOMALY" := by
  have hz : zScoreOf baseline m
      = ((m.TotalRequests : ℝ) - baseline.AverageRequestRate) / baseline.StandardDeviation := rfl
  constructor
  · rw [detectRateAnomaly_eq, hz]
    by_cases hc : thr.RequestRateZScore <
        ((m.TotalRequests : ℝ) - baseline.AverageRequestRate) / baseline.StandardDeviation ∧
        m.IPEntropy < thr.IPEntropyMin
    · rw [if_pos hc]
      simp [hc]
    · rw [if_neg hc]
      simp [hc]
  · intro a h
    obtain ⟨hty, hconf, hsev, -, -, -, -⟩ :=
      detectRateAnomaly_inv thr baseline σ m id now a h
    exact ⟨by rw [hconf, hz], hsev, hty⟩

/-- C5 witness: seed baseline (average 100, stddev 15), thresholds z = 3 and
entropy floor 3; a window of 200 records with source entropy 1 triggers with
confidence 1 and severity CRITICAL, while the same window with source entropy
6 does not trigger. -/
theorem C5_witness :
    ((detectRateAnomaly NewDetector.thresholds bSeed [] mRate1 "id-r" 5).map
        (fun a => (a.Confidence, a.Severity))) = some ((1 : ℝ), "CRITICAL") ∧
    detectRateAnomaly NewDetector.thresholds bSeed [] mRate6 "id-r" 5 = none := by
  have hstd : (0 : ℝ) < bSeed.StandardDeviation := by
    show (0 : ℝ) < 15
    norm_num
  have T := C5_rate_anomaly NewDetector.thresholds bSeed mRate1 [] "id-r" 5 hstd
  have T6 := C5_rate_anomaly NewDetector.thresholds bSeed mRate6 [] "id-r" 5 hstd
  constructor
  · have hcond : NewDetector.thresholds.RequestRateZScore <
        ((mRate1.TotalRequests : ℝ) - bSeed.AverageRequestRate) / bSeed.StandardDeviation ∧
        mRate1.IPEntropy < NewDetector.thresholds.IPEntropyMin := by
      constructor
      · show (3 : ℝ) < (((200 : ℕ) : ℝ) - 100) / 15
        norm_num
      · show (1 : ℝ) < 3
        norm_num
    obtain ⟨a, ha⟩ := Option.ne_none_iff_exists'.mp (T.1.mpr hcond)
    obtain ⟨hconf, hsev, -⟩ := T.2 a ha
    have h1 : a.Confidence = 1 := by
      rw [hconf]
      show min ((((200 : ℕ) : ℝ) - 100) / 15 / 6) 1 = 1
      rw [min_eq_right ?_]
      push_cast
      norm_num
    have h2 : a.Severity = "CRITICAL" := by
      rw [hsev, h1]
      unfold getSeverity
      rw [if_pos (by norm_num)]
    rw [ha, Option.map_some', h1, h2]
  · by_contra h6
    have hcond6 := T6.1.mp h6
    have : ¬(mRate6.IPEntropy < NewDetector.thresholds.IPEntropyMin) := by
      show ¬((6 : ℝ) < 3)
      norm_num
    exact this hcond6.2

/-! ### Claim C3 -/

/-- C3: the entropy estimator returns the spec's Shannon entropy in bits
(H = −Σ p·log2 p over positive-count categories, p = count/total); it returns
0 on a zero-total distribution, 0 on a single-category distribution, log2 k on
a uniform distribution over k categories, and its value is invariant under
permutation of the category entries. -/
theorem C3_entropy (counts : List (String × Nat)) :
    calculateEntropy counts = shannonEntropy counts ∧
    ((counts.map Prod.snd).sum = 0 → calculateEntropy counts = 0) ∧
    (∀ (k : String) (c : Nat), calculateEntropy [(k, c)] = 0) ∧
    (∀ (l : List (String × Nat)) (c : Nat), 0 < c → (∀ p ∈ l, p.2 = c) →
      calculateEntropy l = Real.logb 2 (l.length : ℝ)) ∧
    (∀ l', counts.Perm l' → calculateEntropy counts = calculateEntropy l') :=
  ⟨calculateEntropy_eq_shannon counts, calculateEntropy_total_zero counts,
    calculateEntropy_single,
    fun l c hc hall => calculateEntropy_uniform l c hc hall,
    fun l' h => calculateEntropy_perm counts l' h⟩

/-- C3 witness: an all-zero distribution has entropy 0, a single category has
entropy 0, a uniform two-category distribution has entropy log2 2, and
swapping the two categories leaves the value unchanged. -/
theorem C3_witness :
    calculateEntropy [("a", 0), ("b", 0)] = 0 ∧
    calculateEntropy [("solo", 7)] = 0 ∧
    calculateEntropy [("a", 2), ("b", 2)] = Real.logb 2 2 ∧
    calculateEntropy [("a", 2), ("b", 3)] = calculateEntropy [("b", 3), ("a", 2)] := by
  refine ⟨(C3_entropy [("a", 0), ("b", 0)]).2.1 (by decide),
    (C3_entropy []).2.2.1 "solo" 7, ?_,
    (C3_entropy [("a", 2), ("b", 3)]).2.2.2.2 [("b", 3), ("a", 2)] (by decide)⟩
  have hu := (C3_entropy []).2.2.2.1 [("a", 2), ("b", 2)] 2 (by norm_num) (by decide)
  simpa using hu

/-! ### Run-independence of finding payloads -/

lemma optionRel_toList {r : Attack → Attack → Prop} {o1 o2 : Option Attack}
    (h : OptionRel r o1 o2) : List.Forall₂ r o1.toList o2.toList := by
  cases o1 with
  | none =>
    cases o2 with
    | none => exact List.Forall₂.nil
    | some b => exact absurd h (by simp [OptionRel])
  | some a =>
    cases o2 with
    | none => exact absurd h (by simp [OptionRel])
    | some b => exact List.Forall₂.cons h List.Forall₂.nil

lemma synFlood_payload (thr : Thresholds) (m : TrafficMetrics) {σ1 σ2 : List String}
    (h : σ1.length = σ2.length) (id1 id2 : String) (n1 n2 : Nat) :
    OptionRel SamePayload (detectSYNFlood thr σ1 m id1 n1) (detectSYNFlood thr σ2 m id2 n2) := by
  rw [detectSYNFlood_eq, detectSYNFlood_eq]
  by_cases hc : thr.SYNFloodThreshold < m.SYNPacketCount ∧ σ1.length < 10
  · rw [if_pos hc, if_pos ⟨hc.1, h ▸ hc.2⟩]
    exact ⟨rfl, rfl, rfl, by rw [h], h, rfl⟩
  · rw [if_neg hc, if_neg (by rw [← h]; exact hc)]
    trivial

lemma httpFlood_payload (thr : Thresholds) (requests : List TrafficRequest)
    (m : TrafficMetrics) {σ1 σ2 : List (String × Nat)} (h : σ1.length = σ2.length)
    (id1 id2 : String) (n1 n2 : Nat) :
    OptionRel SamePayload (detectHTTPFlood thr requests σ1 m id1 n1)
      (detectHTTPFlood thr requests σ2 m id2 n2) := by
  rw [detectHTTPFlood_eq, detectHTTPFlood_eq]
  by_cases hc : thr.HTTPFloodThreshold ≤ httpCountOf requests ∧ m.PathEntropy < 2
  · rw [if_pos hc, if_pos hc]
    exact ⟨rfl, rfl, rfl, rfl, by rw [getTopIPs_length, getTopIPs_length, h], rfl⟩
  · rw [if_neg hc, if_neg hc]
    trivial

lemma slowloris_payload (thr : Thresholds) (requests : List TrafficRequest)
    {σ1 σ2 : List String} (h : σ1.length = σ2.length) (id1 id2 : String) (n1 n2 : Nat) :
    OptionRel SamePayload (detectSlowloris thr requests σ1 id1 n1)
      (detectSlowloris thr requests σ2 id2 n2) := by
  rw [detectSlowloris_eq, detectSlowloris_eq]
  by_cases hc : 100 < slowCountOf thr requests ∧ σ1.length < 10
  · rw [if_pos hc, if_pos ⟨hc.1, h ▸ hc.2⟩]
    exact ⟨rfl, rfl, rfl, by rw [h], h, rfl⟩
  · rw [if_neg hc, if_neg (by rw [← h]; exact hc)]
    trivial

lemma udpFlood_payload (m : TrafficMetrics) {σ1 σ2 : List (String × Nat)}
    (h : σ1.length = σ2.length) (id1 id2 : String) (n1 n2 : Nat) :
    OptionRel SamePayload (detectUDPFlood σ1 m id1 n1) (detectUDPFlood σ2 m id2 n2) := by
  rw [detectUDPFlood_eq, detectUDPFlood_eq]
  by_cases hc : 2000 ≤ lookupCount m.ProtocolCounts "UDP"
  · rw [if_pos hc, if_pos hc]
    exact ⟨rfl, rfl, rfl, by rw [h], by rw [getTopIPs_length, getTopIPs_length, h], rfl⟩
  · rw [if_neg hc, if_neg hc]
    trivial

lemma rateAnomaly_payload (thr : Thresholds) (baseline : Baseline) (m : TrafficMetrics)
    {σ1 σ2 : List (String × Nat)} (h : σ1.length = σ2.length) (id1 id2 : String)
    (n1 n2 : Nat) :
    OptionRel SamePayload (detectRateAnomaly thr baseline σ1 m id1 n1)
      (detectRateAnomaly thr baseline σ2 m id2 n2) := by
  rw [detectRateAnomaly_eq, detectRateAnomaly_eq]
  by_cases hc : thr.RequestRateZScore < zScoreOf baseline m ∧ m.IPEntropy < thr.IPEntropyMin
  · rw [if_pos hc, if_pos hc]
    exact ⟨rfl, rfl, rfl, rfl, by rw [getTopIPs_length, getTopIPs_length, h], rfl⟩
  · rw [if_neg hc, if_neg hc]
    trivial

/-! ### Claim C2 -/

/-- C2 (amended): on a fixed batch and baseline the analysis is a function of
the run environment only through the finding IDs, the timestamps, and the
map-iteration orders; any two valid runs produce finding lists of equal length
whose corresponding findings agree in type, confidence, severity, description,
mitigated flag, and number of implicated sources. The IDs, the timestamps,
and the order (and, at top-20 count ties, the choice) of source addresses come
from the UUID generator, the clock, and Go's randomized map-iteration order,
so re-running need not be bit-identical. -/
theorem C2_determinism (d : Detector) (requests : List TrafficRequest) (env1 env2 : RunEnv)
    (h1 : env1.Valid d.thresholds requests) (h2 : env2.Valid d.thresholds requests) :
    List.Forall₂ SamePayload (analyzeTraffic d requests env1) (analyzeTraffic d requests env2) := by
  obtain ⟨h1s, h1h, h1l, h1u, h1r⟩ := h1
  obtain ⟨h2s, h2h, h2l, h2u, h2r⟩ := h2
  have e1 : env1.synOrder.length = env2.synOrder.length := by
    rw [h1s.length_eq, h2s.length_eq]
  have e2 : env1.httpOrder.length = env2.httpOrder.length := by
    rw [h1h.length_eq, h2h.length_eq]
  have e3 : env1.slowOrder.length = env2.slowOrder.length := by
    rw [h1l.length_eq, h2l.length_eq]
  have e4 : env1.udpOrder.length = env2.udpOrder.length := by
    rw [h1u.length_eq, h2u.length_eq]
  have e5 : env1.rateOrder.length = env2.rateOrder.length := by
    rw [h1r.length_eq, h2r.length_eq]
  unfold analyzeTraffic
  by_cases he : requests.isEmpty = true
  · rw [if_pos he, if_pos he]
    exact List.Forall₂.nil
  · rw [if_neg he, if_neg he]
    exact List.rel_append
      (List.rel_append
        (List.rel_append
          (List.rel_append
            (optionRel_toList (synFlood_payload d.thresholds (calculateMetrics requests) e1
              env1.synID env2.synID env1.synNow env2.synNow))
            (optionRel_toList (httpFlood_payload d.thresholds requests
              (calculateMetrics requests) e2 env1.httpID env2.httpID env1.httpNow env2.httpNow)))
          (optionRel_toList (slowloris_payload d.thresholds requests e3
            env1.slowID env2.slowID env1.slowNow env2.slowNow)))
        (optionRel_toList (udpFlood_payload (calculateMetrics requests) e4
          env1.udpID env2.udpID env1.udpNow env2.udpNow)))
      (optionRel_toList (rateAnomaly_payload d.thresholds d.baseline
        (calculateMetrics requests) e5 env1.rateID env2.rateID env1.rateNow env2.rateNow))

/-- Concrete run of the small detector on the a,b,a SYN batch: only the
SYN-flood detector fires, and its finding carries the environment's iteration
order, UUID, and clock reading. -/
lemma run_reqsAB (env : RunEnv) (hlen : env.synOrder.length < 10) :
    analyzeTraffic dSmall reqsAB env =
      [{ ID := env.synID
         AttackType := "SYN_FLOOD"
         Severity := getSeverity (min (((calculateMetrics reqsAB).SYNPacketCount : ℝ) /
           ((dSmall.thresholds.SYNFloodThreshold * 2 : Nat) : ℝ)) 1)
         Confidence := min (((calculateMetrics reqsAB).SYNPacketCount : ℝ) /
           ((dSmall.thresholds.SYNFloodThreshold * 2 : Nat) : ℝ)) 1
         StartTime := env.synNow
         EndTime := none
         SourceIPs := env.synOrder
         TargetIPs := []
         Description := .synFlood (calculateMetrics reqsAB).SYNPacketCount env.synOrder.length
         MetricsSnapshot := none
         Mitigated := false }] := by
  have hsynpos : dSmall.thresholds.SYNFloodThreshold < (calculateMetrics reqsAB).SYNPacketCount := by
    show (1 : ℕ) < 3
    norm_num
  have hhttp : ¬(dSmall.thresholds.HTTPFloodThreshold ≤ httpCountOf reqsAB ∧
      (calculateMetrics reqsAB).PathEntropy < 2) := by
    rintro ⟨h, -⟩
    have hc : httpCountOf reqsAB = 0 := rfl
    have ht : dSmall.thresholds.HTTPFloodThreshold = 2000 := rfl
    omega
  have hslow : ¬(100 < slowCountOf dSmall.thresholds reqsAB ∧ env.slowOrder.length < 10) := by
    rintro ⟨h, -⟩
    have hc : slowCountOf dSmall.thresholds reqsAB = 0 := rfl
    omega
  have hudp : ¬(2000 ≤ lookupCount (calculateMetrics reqsAB).ProtocolCounts "UDP") := by
    intro h
    have hc : lookupCount (calculateMetrics reqsAB).ProtocolCounts "UDP" = 0 := rfl
    omega
  have hrate : ¬(dSmall.thresholds.RequestRateZScore <
      zScoreOf dSmall.baseline (calculateMetrics reqsAB) ∧
      (calculateMetrics reqsAB).IPEntropy < dSmall.thresholds.IPEntropyMin) := by
    rintro ⟨h, -⟩
    have hz : zScoreOf dSmall.baseline (calculateMetrics reqsAB)
        = (((3 : ℕ) : ℝ) - 100) / 15 := rfl
    have h3 : dSmall.thresholds.RequestRateZScore = (3 : ℝ) := rfl
    rw [hz, h3] at h
    norm_num at h
  unfold analyzeTraffic
  rw [if_neg (by decide)]
  simp only [detectSYNFlood_eq, detectHTTPFlood_eq, detectSlowloris_eq,
    detectUDPFlood_eq, detectRateAnomaly_eq]
  rw [if_pos ⟨hsynpos, hlen⟩, if_neg hhttp, if_neg hslow, if_neg hudp, if_neg hrate]
  rfl

/-- C2 counterexample: two valid runs on the same batch and the same detector
state differ bit-for-bit — the source-address lists come out in different
orders (randomized map iteration) and the finding IDs differ (fresh UUIDs) —
so re-running is not bit-identical. -/
theorem C2_counterexample :
    envAB1.Valid dSmall.thresholds reqsAB ∧ envAB2.Valid dSmall.thresholds reqsAB ∧
    (analyzeTraffic dSmall reqsAB envAB1).map Attack.SourceIPs ≠
      (analyzeTraffic dSmall reqsAB envAB2).map Attack.SourceIPs ∧
    (analyzeTraffic dSmall reqsAB envAB1).map Attack.ID ≠
      (analyzeTraffic dSmall reqsAB envAB2).map Attack.ID := by
  refine ⟨⟨by decide, by decide, by decide, by decide, by decide⟩,
    ⟨by decide, by decide, by decide, by decide, by decide⟩, ?_, ?_⟩
  · rw [run_reqsAB envAB1 (by decide), run_reqsAB envAB2 (by decide)]
    simp only [List.map_cons, List.map_nil]
    decide
  · rw [run_reqsAB envAB1 (by decide), run_reqsAB envAB2 (by decide)]
    simp only [List.map_cons, List.map_nil]
    decide

/-- C2 witness: the amended determinism theorem applied to the two concrete
valid environments of the counterexample run. -/
theorem C2_witness :
    List.Forall₂ SamePayload (analyzeTraffic dSmall reqsAB envAB1)
      (analyzeTraffic dSmall reqsAB envAB2) :=
  C2_determinism dSmall reqsAB envAB1 envAB2
    ⟨by decide, by decide, by decide, by decide, by decide⟩
    ⟨by decide, by decide, by decide, by decide, by decide⟩

/-! ### Claim C6 -/

/-- C6: severity is the shared step function of confidence (≥0.9 CRITICAL,
≥0.7 HIGH, ≥0.5 MEDIUM, else LOW), and every finding emitted by any of the
five detectors — for any batch, however extreme its counts, given a
non-negative configured z-score threshold — has confidence in [0, 1] and
severity equal to that step function of its confidence. -/
theorem C6_confidence_severity :
    (∀ c : ℝ,
      (0.9 ≤ c → getSeverity c = "CRITICAL") ∧
      (0.7 ≤ c ∧ c < 0.9 → getSeverity c = "HIGH") ∧
      (0.5 ≤ c ∧ c < 0.7 → getSeverity c = "MEDIUM") ∧
      (c < 0.5 → getSeverity c = "LOW")) ∧
    ∀ (d : Detector) (requests : List TrafficRequest) (env : RunEnv),
      0 ≤ d.thresholds.RequestRateZScore →
      List.Forall (fun a => (0 ≤ a.Confidence ∧ a.Confidence ≤ 1) ∧
        a.Severity = getSeverity a.Confidence) (analyzeTraffic d requests env) := by
  constructor
  · intro c
    refine ⟨fun h => ?_, fun h => ?_, fun h => ?_, fun h => ?_⟩
    · unfold getSeverity
      rw [if_pos h]
    · obtain ⟨h1, h2⟩ := h
      unfold getSeverity
      rw [if_neg (by linarith), if_pos h1]
    · obtain ⟨h1, h2⟩ := h
      unfold getSeverity
      rw [if_neg (by linarith), if_neg (by linarith), if_pos h1]
    · unfold getSeverity
      rw [if_neg (by linarith), if_neg (by linarith), if_neg (by linarith)]
  · intro d requests env hthr
    rw [List.forall_iff_forall_mem]
    intro a ha
    unfold analyzeTraffic at ha
    by_cases he : requests.isEmpty = true
    · rw [if_pos he] at ha
      simp at ha
    · rw [if_neg he] at ha
      simp only [List.mem_append, Option.mem_toList, Option.mem_def] at ha
      rcases ha with ((((h1 | h2) | h3) | h4) | h5)
      · obtain ⟨-, hconf, hsev, -, -, -, -, -, -⟩ :=
          detectSYNFlood_inv d.thresholds env.synOrder (calculateMetrics requests)
            env.synID env.synNow a h1
        refine ⟨⟨?_, ?_⟩, hsev⟩
        · rw [hconf]
          exact le_min (div_nonneg (Nat.cast_nonneg _) (Nat.cast_nonneg _)) zero_le_one
        · rw [hconf]
          exact min_le_right _ _
      · obtain ⟨-, hconf, hsev, -, -, -, -, -, -⟩ :=
          detectHTTPFlood_inv d.thresholds requests env.httpOrder (calculateMetrics requests)
            env.httpID env.httpNow a h2
        refine ⟨⟨?_, ?_⟩, hsev⟩
        · rw [hconf]
          exact le_min (div_nonneg (Nat.cast_nonneg _) (Nat.cast_nonneg _)) zero_le_one
        · rw [hconf]
          exact min_le_right _ _
      · obtain ⟨-, hconf, hsev, -, -, -, -⟩ :=
          detectSlowloris_inv d.thresholds requests env.slowOrder env.slowID env.slowNow a h3
        refine ⟨⟨?_, ?_⟩, hsev⟩
        · rw [hconf]
          exact le_min (div_nonneg (Nat.cast_nonneg _) (by norm_num)) zero_le_one
        · rw [hconf]
          exact min_le_right _ _
      · obtain ⟨-, hconf, hsev, -, -, -, -⟩ :=
          detectUDPFlood_inv env.udpOrder (calculateMetrics requests) env.udpID env.udpNow a h4
        refine ⟨⟨?_, ?_⟩, hsev⟩
        · rw [hconf]
          exact le_min (div_nonneg (Nat.cast_nonneg _) (by norm_num)) zero_le_one
        · rw [hconf]
          exact min_le_right _ _
      · obtain ⟨-, hconf, hsev, -, -, -, hcond⟩ :=
          detectRateAnomaly_inv d.thresholds d.baseline env.rateOrder (calculateMetrics requests)
            env.rateID env.rateNow a h5
        refine ⟨⟨?_, ?_⟩, hsev⟩
        · rw [hconf]
          exact le_min (div_nonneg (le_of_lt (lt_of_le_of_lt hthr hcond.1)) (by norm_num))
            zero_le_one
        · rw [hconf]
          exact min_le_right _ _

/-- C6 witness: the step function at confidence 0.75 and the bound theorem on
a concrete SYN-flood run. -/
theorem C6_witness :
    getSeverity 0.75 = "HIGH" ∧
    List.Forall (fun a => (0 ≤ a.Confidence ∧ a.Confidence ≤ 1) ∧
      a.Severity = getSeverity a.Confidence) (analyzeTraffic dSmall reqsAB envAB1) :=
  ⟨(C6_confidence_severity.1 0.75).2.1 ⟨by norm_num, by norm_num⟩,
    C6_confidence_severity.2 dSmall reqsAB envAB1 (by
      show (0 : ℝ) ≤ 3
      norm_num)⟩

/-! ### Claim C10 -/

/-- C10: the analysis returns at most one finding per attack type, and the
finding list follows the fixed detector order SYN_FLOOD, HTTP_FLOOD,
SLOWLORIS, UDP_FLOOD, RATE_ANOMALY: the list of type tags is a subsequence of
that five-element sequence, hence duplicate-free and of length at most five. -/
theorem C10_finding_order (d : Detector) (requests : List TrafficRequest) (env : RunEnv) :
    ((analyzeTraffic d requests env).map Attack.AttackType).Sublist
        ["SYN_FLOOD", "HTTP_FLOOD", "SLOWLORIS", "UDP_FLOOD", "RATE_ANOMALY"] ∧
    ((analyzeTraffic d requests env).map Attack.AttackType).Nodup ∧
    (analyzeTraffic d requests env).length ≤ 5 := by
  have hsub : ((analyzeTraffic d requests env).map Attack.AttackType).Sublist
      ["SYN_FLOOD", "HTTP_FLOOD", "SLOWLORIS", "UDP_FLOOD", "RATE_ANOMALY"] := by
    unfold analyzeTraffic
    by_cases he : requests.isEmpty = true
    · rw [if_pos he]
      simp
    · rw [if_neg he]
      simp only [List.map_append]
      have h1 := toList_type_sublist
        (fun a h => (detectSYNFlood_inv d.thresholds env.synOrder (calculateMetrics requests)
          env.synID env.synNow a h).1)
      have h2 := toList_type_sublist
        (fun a h => (detectHTTPFlood_inv d.thresholds requests env.httpOrder
          (calculateMetrics requests) env.httpID env.httpNow a h).1)
      have h3 := toList_type_sublist
        (fun a h => (detectSlowloris_inv d.thresholds requests env.slowOrder
          env.slowID env.slowNow a h).1)
      have h4 := toList_type_sublist
        (fun a h => (detectUDPFlood_inv env.udpOrder (calculateMetrics requests)
          env.udpID env.udpNow a h).1)
      have h5 := toList_type_sublist
        (fun a h => (detectRateAnomaly_inv d.thresholds d.baseline env.rateOrder
          (calculateMetrics requests) env.rateID env.rateNow a h).1)
      exact (((h1.append h2).append h3).append h4).append h5
  have hnodup : ((analyzeTraffic d requests env).map Attack.AttackType).Nodup :=
    List.Nodup.sublist hsub (by decide)
  refine ⟨hsub, hnodup, ?_⟩
  have := hsub.length_le
  simpa using this

end DDoS
